import Mathlib

/-!
# Verification of the cloudnet-webinterface real-time log console

Shallow embedding of the core of `src/src/components/console.tsx` (the
`ServiceConsole` component: socket initialization, log buffer, filtering,
export, command submission) and of the server API helpers
(`serverApiGet` / `serverApiPost` and the ticket-issuance wrapper).

Conventions of the embedding:

* JavaScript strings are Lean `String`s; `startsWith`, `includes`,
  `toLowerCase`, `trim` and `join` are re-implemented over `String.data`
  (lists of characters) so that every proof can evaluate them.
* The component's React state cells (`history`, `input`, `filter`,
  `socketBlocked`) and refs (`hasFetchedLogsRef`, `socketRef`) are fields
  of one record `Cst`.  React discards a state-setter call made after the
  component has unmounted, so every modelled `setXxx` call is guarded by
  the `mounted` flag; ref writes are plain mutations and are not guarded.
* Each `await` in `initializeSocket` is a suspension point.  The body is
  split into the three segments between suspension points (`segA`,
  `segB`, `segC`); a single uninterrupted call is `runInit`, and an
  explicit small-step system (`Sys` / `stepAct`) interleaves resumptions
  of in-flight calls with message delivery and the effect-cleanup
  (`dispose`) so that races can be examined.
* External outcomes that the code only observes (ticket request, cookie
  lookup, cached-log fetch, socket construction, command send) are fields
  of an environment record `Env`; observable actions performed by the
  component are collected in an `Effect` trace.
-/

namespace CloudnetConsole

/-- Character-level prefix test (`String.prototype.startsWith`): first
argument the candidate prefix, second the haystack; recursion is on the
prefix. -/
def startsWithAux : List Char → List Char → Bool
  | [], _ => true
  | _ :: _, [] => false
  | pc :: ps, c :: cs => (c == pc) && startsWithAux ps cs

/-- JS character-level prefix test, haystack first, candidate prefix second. -/
def charsStartWith (s p : List Char) : Bool :=
  startsWithAux p s

/-- JS `s.startsWith(p)`. -/
def jsStartsWith (s p : String) : Bool :=
  charsStartWith s.data p.data

/-- JS substring containment at character level: does some suffix of the
haystack start with the needle?  (`"".includes("")` is `true`.) -/
def charsInclude (needle : List Char) : List Char → Bool
  | [] => needle.isEmpty
  | c :: cs => charsStartWith (c :: cs) needle || charsInclude needle cs

/-- JS `s.includes(p)`. -/
def jsIncludes (s p : String) : Bool :=
  charsInclude p.data s.data

/-- JS `s.toLowerCase()` (character-wise lowering, which is what the
console's ASCII level tags INFO/WARN/ERROR need). -/
def jsToLower (s : String) : String :=
  ⟨s.data.map Char.toLower⟩

/-- JS `s.trim()`: strip leading and trailing whitespace. -/
def jsTrim (s : String) : String :=
  ⟨((s.data.dropWhile Char.isWhitespace).reverse.dropWhile Char.isWhitespace).reverse⟩

/-- JS truthiness of an optional string: `undefined` and `""` are falsy. -/
def truthyOpt : Option String → Bool
  | none => false
  | some s => !(s == "")

/-- Declared scheme of an endpoint address or page origin (spec §3,
`EndpointDescriptor.declaredScheme`). -/
inductive Scheme
  | http
  | https
deriving DecidableEq, Repr

/-- Secure/insecure classification of a scheme. -/
def Scheme.isSecure : Scheme → Bool
  | .http => false
  | .https => true

/-- The scheme text that begins a well-formed absolute address. -/
def schemeText : Scheme → List Char
  | .http => "http://".data
  | .https => "https://".data

/-- A well-formed address string `scheme://host`, as the session cookie and
`window.location.origin` carry them. -/
def renderAddress (s : Scheme) (host : String) : String :=
  ⟨schemeText s ++ host.data⟩

/-- console.tsx line 65/67: the push-transport protocol chosen for an
address, `'wss'` when the address starts with `"https"`, else `'ws'`. -/
def protocolFor (addr : String) : String :=
  if jsStartsWith addr "https" then "wss" else "ws"

/-- console.tsx line 71: the connect attempt is blocked exactly when the
protocol derived from the cookie address differs from the protocol derived
from the page origin. -/
def guardBlocks (cookieAddress pageOrigin : String) : Bool :=
  protocolFor cookieAddress != protocolFor pageOrigin

/-- console.tsx line 66: `cookieAddress.replace(/^(http:\/\/|https:\/\/)/, '')`,
dropping one leading scheme prefix if present. -/
def stripScheme (s : String) : String :=
  if charsStartWith s.data "http://".data then ⟨s.data.drop 7⟩
  else if charsStartWith s.data "https://".data then ⟨s.data.drop 8⟩
  else s

/-- Target kind of the console (`type` prop): service or node. -/
inductive TargetKind
  | service
  | node
deriving DecidableEq, Repr

/-- Result of an awaited call that the component only observes: the value,
or a thrown rejection. -/
inductive Outcome (α : Type)
  | ok (val : α)
  | failed
deriving DecidableEq, Repr

/-- Observable actions the component performs on its collaborators. -/
inductive Effect
  | requestTicket
  | requestCookies
  | newWebSocket (url : String)
  | closeSocket (sid : Nat)
  | toastConnError
  | toastFetchError
  | toastCommandError
  | fetchCachedLogs (service : String)
  | execute (service command : String)
deriving DecidableEq, Repr

/-- Does this effect construct a socket? -/
def Effect.isSocketCtor : Effect → Bool
  | .newWebSocket _ => true
  | _ => false

/-- Does this effect request a connection ticket? -/
def Effect.isTicketReq : Effect → Bool
  | .requestTicket => true
  | _ => false

/-- Number of ticket requests in a trace. -/
def countTicketReqs (l : List Effect) : Nat :=
  l.countP (fun e => e.isTicketReq)

/-- Number of socket constructions in a trace. -/
def countSocketCtors (l : List Effect) : Nat :=
  l.countP (fun e => e.isSocketCtor)

/-- Component state: the React state cells and refs of `ServiceConsole`.
`history` holds the `output` field of each `ConsoleEntry` in order;
`socketRef` holds the id of the currently stored socket (`null` = `none`);
`nextId` numbers sockets in construction order; `mounted` records whether
the component is still mounted (React drops state-setter calls after
unmount, so modelled setters are guarded by it). -/
structure Cst where
  history : List String
  input : String
  filter : String
  socketBlocked : Bool
  hasFetchedLogs : Bool
  socketRef : Option Nat
  nextId : Nat
  mounted : Bool
deriving DecidableEq, Repr

/-- `setSocketBlocked(true)` — a React state set, dropped after unmount. -/
def setBlockedTrue (g : Cst) : Cst :=
  if g.mounted then { g with socketBlocked := true } else g

/-- `setHistory(prev => [...prev, line])` — dropped after unmount. -/
def appendHistory (line : String) (g : Cst) : Cst :=
  if g.mounted then { g with history := g.history ++ [line] } else g

/-- `setHistory(lines)` — dropped after unmount. -/
def setHistoryTo (lines : List String) (g : Cst) : Cst :=
  if g.mounted then { g with history := lines } else g

/-- `setInput('')` — dropped after unmount. -/
def setInputEmpty (g : Cst) : Cst :=
  if g.mounted then { g with input := "" } else g

/-- Outcomes of the external calls a single mount of the component can
await.  `cookiesRes` carries the already url-decoded `add` cookie value
(the code applies `decodeURIComponent` to it); `pageOrigin` is
`window.location.origin`; `ctorOk` is whether `new WebSocket(url)` throws. -/
structure Env where
  cacheRes : Outcome (List String)
  ticketRes : Outcome String
  cookiesRes : Outcome String
  pageOrigin : String
  ctorOk : Bool
deriving DecidableEq, Repr

/-- The props of `ServiceConsole` that the modelled logic reads. -/
structure Props where
  webSocketPath : String
  serviceName : Option String
  ty : Option TargetKind
deriving DecidableEq, Repr

/-- Result of running one segment of `initializeSocket`: the state after
the segment, the effects it performed, and whether execution continues
into the next segment (false = the function returned). -/
structure SegOut where
  st : Cst
  effs : List Effect
  cont : Bool
deriving Repr

/-- console.tsx lines 58-62, up to the first `await`: the
re-initialization guard `if (socketRef.current) return`, then the ticket
request is issued. -/
def segA (g : Cst) : SegOut :=
  if g.socketRef.isSome then ⟨g, [], false⟩
  else ⟨g, [Effect.requestTicket], true⟩

/-- console.tsx lines 62-63 resumed with the ticket outcome: a rejection is
caught by the outer `catch` (lines 97-101: `setSocketBlocked(true)` and a
connection-error toast); on success the cookie request is issued. -/
def segB (env : Env) (g : Cst) : SegOut :=
  match env.ticketRes with
  | .failed => ⟨setBlockedTrue g, [Effect.toastConnError], false⟩
  | .ok _ => ⟨g, [Effect.requestCookies], true⟩

/-- console.tsx lines 63-96 resumed with the cookie outcome: scheme guard
(lines 65-74), socket construction with its inner `catch` (lines 78-85),
then handler attachment; a cookie rejection falls into the outer `catch`. -/
def segC (p : Props) (env : Env) (g : Cst) : SegOut :=
  match env.cookiesRes with
  | .failed => ⟨setBlockedTrue g, [Effect.toastConnError], false⟩
  | .ok cookieAddress =>
    let protocol := protocolFor cookieAddress
    let address := stripScheme cookieAddress
    let domainUrlProtocol := protocolFor env.pageOrigin
    if protocol != domainUrlProtocol then
      ⟨setBlockedTrue g, [], false⟩
    else
      let ticketVal := match env.ticketRes with
        | .ok t => t
        | .failed => ""
      let socketUrl := protocol ++ "://" ++ address ++ p.webSocketPath ++ "?ticket=" ++ ticketVal
      if env.ctorOk then
        ⟨{ g with socketRef := some g.nextId, nextId := g.nextId + 1 },
          [Effect.newWebSocket socketUrl], false⟩
      else
        ⟨setBlockedTrue g, [Effect.newWebSocket socketUrl, Effect.toastConnError], false⟩

/-- One uninterrupted run of `initializeSocket`: the three segments in
sequence, returning the final state and the effect trace of the call. -/
def runInit (p : Props) (env : Env) (g : Cst) : Cst × List Effect :=
  let a := segA g
  if a.cont then
    let b := segB env a.st
    if b.cont then
      let c := segC p env b.st
      (c.st, a.effs ++ b.effs ++ c.effs)
    else (b.st, a.effs ++ b.effs)
  else (a.st, a.effs)

/-- console.tsx lines 105-117, `cachedLogLines`: guarded by
`hasFetchedLogsRef`; for a service target with a truthy name the cached
tail is fetched, seeding `history` on success and toasting (non-fatally)
on failure. -/
def runCachedLogLines (p : Props) (env : Env) (g : Cst) : Cst × List Effect :=
  if g.hasFetchedLogs then (g, [])
  else
    let g1 := { g with hasFetchedLogs := true }
    match p.ty with
    | some TargetKind.service =>
      if truthyOpt p.serviceName then
        match env.cacheRes with
        | .ok lines => (setHistoryTo lines g1, [Effect.fetchCachedLogs (p.serviceName.getD "")])
        | .failed => (g1, [Effect.fetchCachedLogs (p.serviceName.getD ""), Effect.toastFetchError])
      else (g1, [])
    | _ => (g1, [])

/-- console.tsx line 119: `cachedLogLines().then(initializeSocket)` — the
seeding completes (success or failure) before the connect attempt runs. -/
def mountRun (p : Props) (env : Env) (g : Cst) : Cst × List Effect :=
  let c := runCachedLogLines p env g
  let i := runInit p env c.1
  (i.1, c.2 ++ i.2)

/-- Program counter of one in-flight `initializeSocket` call: which
suspension point it is parked at. -/
inductive Pc
  | atA
  | atB
  | atC
  | halted
deriving DecidableEq, Repr

/-- One in-flight `initializeSocket` call: its environment (the outcomes
its own awaits will see) and its program counter. -/
structure InitCall where
  env : Env
  pc : Pc
deriving Repr

/-- State of the interleaving system: component state, the in-flight
calls, and the accumulated global effect trace. -/
structure Sys where
  st : Cst
  calls : List InitCall
  effs : List Effect
deriving Repr

/-- Run the next segment of an in-flight call. -/
def callStep (p : Props) (g : Cst) (t : InitCall) : SegOut × Pc :=
  match t.pc with
  | .atA => let o := segA g; (o, if o.cont then .atB else .halted)
  | .atB => let o := segB t.env g; (o, if o.cont then .atC else .halted)
  | .atC => (segC p t.env g, .halted)
  | .halted => (⟨g, [], false⟩, .halted)

/-- Events the single-threaded event loop can process: resume in-flight
call `i`; deliver a message from socket `sid` (the attached `onmessage`
handler appends via `setHistory`, which React drops once unmounted —
delivery is not gated on the socket being open, since a message task
queued before `close()` still fires); run the effect cleanup of
console.tsx lines 121-125 (unmount: close the stored socket if any). -/
inductive Act
  | run (i : Nat)
  | deliverMsg (sid : Nat) (line : String)
  | dispose
deriving Repr

/-- Small-step semantics of the event loop. -/
def stepAct (p : Props) (s : Sys) : Act → Sys
  | .run i =>
    match s.calls[i]? with
    | some t =>
      let r := callStep p s.st t
      { st := r.1.st, effs := s.effs ++ r.1.effs,
        calls := s.calls.set i { t with pc := r.2 } }
    | none => s
  | .deliverMsg sid line =>
    if sid < s.st.nextId then { s with st := appendHistory line s.st } else s
  | .dispose =>
    let closeEffs := match s.st.socketRef with
      | some sid => [Effect.closeSocket sid]
      | none => []
    { s with st := { s.st with mounted := false }, effs := s.effs ++ closeEffs }

/-- Process a list of events in order. -/
def runActs (p : Props) (acts : List Act) (s : Sys) : Sys :=
  acts.foldl (stepAct p) s

/-- console.tsx lines 156-159: the predicate of `filteredHistory` — the
string `'ALL'` selects everything, any other filter value selects entries
whose text case-insensitively contains it. -/
def entryMatches (filter entry : String) : Bool :=
  if filter == "ALL" then true
  else jsIncludes (jsToLower entry) (jsToLower filter)

/-- console.tsx lines 156-159: the filtered view of the buffer. -/
def filteredHistory (filter : String) (history : List String) : List String :=
  history.filter (entryMatches filter)

/-- console.tsx lines 141-152, `downloadLogs`: the exported text is the
full `history`, newline-joined — the filter state plays no part. -/
def downloadLogsContent (g : Cst) : String :=
  String.intercalate "\n" g.history

/-- console.tsx lines 128-139, `handleSubmit`: with a non-blank trimmed
input and a truthy service name, the command is sent; only a successful
send clears the input, a failure toasts and leaves it. -/
def handleSubmit (p : Props) (g : Cst) (sendRes : Outcome Unit) : Cst × List Effect :=
  if (jsTrim g.input != "") && truthyOpt p.serviceName then
    match sendRes with
    | .ok _ => (setInputEmpty g, [Effect.execute (p.serviceName.getD "") g.input])
    | .failed => (g, [Effect.execute (p.serviceName.getD "") g.input, Effect.toastCommandError])
  else (g, [])

/-- The component state at mount: empty buffer, empty input, filter
`'ALL'`, nothing blocked, nothing fetched, no socket, mounted. -/
def initCst : Cst :=
  { history := [], input := "", filter := "ALL", socketBlocked := false,
    hasFetchedLogs := false, socketRef := none, nextId := 0, mounted := true }

/-! ### Concrete inputs used by the counterexample and witness theorems -/

/-- A concrete set of props: a service console. -/
def demoProps : Props :=
  { webSocketPath := "/serviceConsole", serviceName := some "Lobby-1",
    ty := some TargetKind.service }

/-- Environment of a fully successful attempt on a secure page whose
endpoint also declares `https` (the cached-tail fetch fails, which is the
non-fatal case claim C8 describes). -/
def envGood : Env :=
  { cacheRes := .failed, ticketRes := .ok "TCK",
    cookiesRes := .ok "https://node.example:2812",
    pageOrigin := "https://panel.example", ctorOk := true }

/-- Environment with a scheme mismatch: endpoint declares `http`, page
origin is `https`. -/
def envMismatch : Env :=
  { cacheRes := .failed, ticketRes := .ok "TCK",
    cookiesRes := .ok "http://node.example:2812",
    pageOrigin := "https://panel.example", ctorOk := true }

/-- Environment of a fully successful attempt whose cached-tail fetch
also succeeds, returning one line. -/
def envGoodCache : Env :=
  { cacheRes := .ok ["cached line"], ticketRes := .ok "TCK",
    cookiesRes := .ok "https://node.example:2812",
    pageOrigin := "https://panel.example", ctorOk := true }

/-- Environment whose ticket request is rejected. -/
def envAuthFail : Env :=
  { cacheRes := .failed, ticketRes := .failed,
    cookiesRes := .ok "https://node.example:2812",
    pageOrigin := "https://panel.example", ctorOk := true }

/-- A single connect attempt in flight, parked before its ticket resolves. -/
def disposeRaceSys : Sys :=
  { st := initCst, calls := [{ env := envGood, pc := Pc.atA }], effs := [] }

/-- Schedule in which the cleanup (unmount) runs while the attempt is
awaiting its ticket; the attempt then resumes and a queued message from
the socket it opened is delivered afterwards. -/
def disposeRaceActs : List Act :=
  [Act.run 0, Act.dispose, Act.run 0, Act.run 0, Act.deliverMsg 0 "late line"]

/-- Two connect attempts, both yet to run their first segment. -/
def overlapSys : Sys :=
  { st := initCst,
    calls := [{ env := envGood, pc := Pc.atA }, { env := envGood, pc := Pc.atA }],
    effs := [] }

/-- Schedule interleaving two calls: the second enters `initializeSocket`
while the first is still awaiting its ticket. -/
def overlapActs : List Act :=
  [Act.run 0, Act.run 1, Act.run 0, Act.run 1, Act.run 0, Act.run 1]

/-! ### Server API helpers (`src/unnamed/part_000`) -/

/-- Error kinds thrown by the server API helpers (part_000 lines 59-74 and
85-87): missing session data, non-ok HTTP status, empty body, unparsable
body. -/
inductive ApiErr
  | unauthorized
  | httpErr (status : Nat)
  | emptyResp
  | parseFail
deriving DecidableEq, Repr

/-- A fetch response as `handleResponse` observes it: the `ok` flag, the
status code and the body text. -/
structure Resp where
  ok : Bool
  status : Nat
  text : String
deriving DecidableEq, Repr

/-- part_000 lines 59-74, `handleResponse`: a non-ok status, an empty body
or an unparsable body each throw; `parse` stands for `JSON.parse`. -/
def handleResponse {α : Type} (parse : String → Option α) (r : Resp) : Except ApiErr α :=
  if !r.ok then Except.error (ApiErr.httpErr r.status)
  else if r.text == "" then Except.error ApiErr.emptyResp
  else
    match parse r.text with
    | some v => Except.ok v
    | none => Except.error ApiErr.parseFail

/-- `cookie.get(name)?.value` over the request's cookie list. -/
def cookieGet (store : List (String × String)) (name : String) : Option String :=
  (store.find? (fun kv => kv.1 == name)).map (fun kv => kv.2)

/-- part_000 lines 76-99, `serverApiGet`.  The first component is the URL
that was fetched, `none` when no network call was made.  `decode` stands
for `decodeURIComponent`, `queryString` for the already-encoded
`URLSearchParams` suffix, `resp` for the awaited `fetch` response.  The
bearer credential is the `at` cookie, the endpoint address the `add`
cookie; JS truthiness makes an absent or empty value fail the check on
line 85. -/
def serverApiGet {α : Type} (decode : String → String) (resp : Resp)
    (parse : String → Option α) (store : List (String × String))
    (url queryString : String) : Option String × Except ApiErr α :=
  let accessToken := cookieGet store "at"
  let address := cookieGet store "add"
  if truthyOpt accessToken && truthyOpt address then
    let requestUrl := decode (address.getD "") ++ url ++ queryString
    (some requestUrl, handleResponse parse resp)
  else (none, Except.error ApiErr.unauthorized)

/-- part_000 lines 101-122, `serverApiPost` (the body argument arrives
already JSON-serialized); the first component records the posted request —
URL and body — and is `none` when no network call was made. -/
def serverApiPost {α : Type} (decode : String → String) (resp : Resp)
    (parse : String → Option α) (store : List (String × String))
    (url body : String) : Option (String × String) × Except ApiErr α :=
  let accessToken := cookieGet store "at"
  let address := cookieGet store "add"
  if truthyOpt accessToken && truthyOpt address then
    let requestUrl := decode (address.getD "") ++ url
    (some (requestUrl, body), handleResponse parse resp)
  else (none, Except.error ApiErr.unauthorized)

/-- part_000 lines 133-134, `serverAuthApi.createTicket`: ticket issuance
is a `serverApiPost` to `/api/auth/ticket` with the serialized
`type` body. -/
def serverAuthCreateTicket {α : Type} (decode : String → String) (resp : Resp)
    (parse : String → Option α) (store : List (String × String))
    (ty : String) : Option (String × String) × Except ApiErr α :=
  serverApiPost decode resp parse store "/api/auth/ticket"
    ("\x7b\"type\":\"" ++ ty ++ "\"\x7d")

/-! ### Helper lemmas -/

/-- A string beginning `http:` does not start with `"https"`, whatever
follows. -/
theorem charsStartWith_httpColon (t : List Char) :
    charsStartWith ('h' :: 't' :: 't' :: 'p' :: ':' :: t) "https".data = false := rfl

/-- A string beginning `https` starts with `"https"`, whatever follows. -/
theorem charsStartWith_httpsHead (t : List Char) :
    charsStartWith ('h' :: 't' :: 't' :: 'p' :: 's' :: t) "https".data = true := rfl

/-- The code's `startsWith('https')` classification agrees with the
declared scheme on every well-formed address. -/
theorem jsStartsWith_renderAddress (s : Scheme) (host : String) :
    jsStartsWith (renderAddress s host) "https" = s.isSecure := by
  cases s
  · show charsStartWith ("http://".data ++ host.data) "https".data = false
    rw [show "http://".data = 'h' :: 't' :: 't' :: 'p' :: ':' :: '/' :: '/' :: [] from rfl]
    simp only [List.cons_append, List.nil_append]
    exact charsStartWith_httpColon _
  · show charsStartWith ("https://".data ++ host.data) "https".data = true
    rw [show "https://".data = 'h' :: 't' :: 't' :: 'p' :: 's' :: ':' :: '/' :: '/' :: [] from rfl]
    simp only [List.cons_append, List.nil_append]
    exact charsStartWith_httpsHead _

/-- Differing secure/insecure classifications force differing transport
protocols. -/
theorem protocolFor_ne_of_class_ne {a b : String}
    (h : jsStartsWith a "https" ≠ jsStartsWith b "https") :
    (protocolFor a != protocolFor b) = true := by
  unfold protocolFor
  cases ha : jsStartsWith a "https" <;> cases hb : jsStartsWith b "https" <;>
    first
      | exact absurd (ha.trans hb.symm) h
      | decide

/-- Equal secure/insecure classifications force equal transport protocols. -/
theorem protocolFor_eq_of_class_eq {a b : String}
    (h : jsStartsWith a "https" = jsStartsWith b "https") :
    protocolFor a = protocolFor b := by
  unfold protocolFor
  rw [h]

/-- Unequal strings test `==` false. -/
theorem beq_false_of_ne {a b : String} (h : a ≠ b) : (a == b) = false := by
  cases hc : a == b
  · rfl
  · exact absurd (eq_of_beq hc) h

/-- `setSocketBlocked` never touches the socket ref. -/
@[simp] theorem setBlockedTrue_socketRef (g : Cst) :
    (setBlockedTrue g).socketRef = g.socketRef := by
  unfold setBlockedTrue
  split <;> rfl

/-- `setSocketBlocked` never touches the history. -/
@[simp] theorem setBlockedTrue_history (g : Cst) :
    (setBlockedTrue g).history = g.history := by
  unfold setBlockedTrue
  split <;> rfl

/-- On a mounted component, `setSocketBlocked(true)` sets the flag. -/
theorem setBlockedTrue_socketBlocked (g : Cst) (h : g.mounted = true) :
    (setBlockedTrue g).socketBlocked = true := by
  unfold setBlockedTrue
  rw [h]
  rfl

/-- `setSocketBlocked` never touches the mounted flag. -/
@[simp] theorem setBlockedTrue_mounted (g : Cst) :
    (setBlockedTrue g).mounted = g.mounted := by
  unfold setBlockedTrue
  split <;> rfl

/-- The entry segment never changes component state. -/
theorem segA_st (g : Cst) : (segA g).st = g := by
  unfold segA
  split <;> rfl

/-- The ticket segment neither appends to the history nor remounts. -/
theorem segB_st (env : Env) (g : Cst) :
    (segB env g).st.history = g.history ∧ (segB env g).st.mounted = g.mounted := by
  unfold segB
  cases env.ticketRes <;> simp

/-- The cookie/guard/construction segment neither appends to the history
nor remounts. -/
theorem segC_st (p : Props) (env : Env) (g : Cst) :
    (segC p env g).st.history = g.history ∧ (segC p env g).st.mounted = g.mounted := by
  unfold segC
  cases env.cookiesRes with
  | failed => simp
  | ok addr =>
    dsimp only
    split
    · simp
    · split <;> simp

/-- Resuming any in-flight call neither appends to the history nor
remounts. -/
theorem callStep_st (p : Props) (g : Cst) (t : InitCall) :
    (callStep p g t).1.st.history = g.history ∧
    (callStep p g t).1.st.mounted = g.mounted := by
  cases hp : t.pc <;>
    simp [callStep, hp, segA_st, segB_st, segC_st]

/-- After unmount, no event-loop step appends to the history or remounts
the component. -/
theorem stepAct_halted (p : Props) (s : Sys) (a : Act) (hm : s.st.mounted = false) :
    (stepAct p s a).st.history = s.st.history ∧
    (stepAct p s a).st.mounted = false := by
  cases a with
  | run i =>
    cases hc : s.calls[i]? with
    | none => simp [stepAct, hc, hm]
    | some t =>
      have h := callStep_st p s.st t
      simp [stepAct, hc, h.1, h.2, hm]
  | deliverMsg sid line =>
    simp only [stepAct]
    split
    · simp [appendHistory, hm]
    · exact ⟨rfl, hm⟩
  | dispose => exact ⟨rfl, rfl⟩

/-- After unmount, no sequence of event-loop steps changes the history or
the mounted flag. -/
theorem runActs_halted (p : Props) (acts : List Act) :
    ∀ s : Sys, s.st.mounted = false →
      (runActs p acts s).st.history = s.st.history ∧
      (runActs p acts s).st.mounted = false := by
  induction acts with
  | nil => exact fun s hm => ⟨rfl, hm⟩
  | cons a as ih =>
    intro s hm
    have h1 := stepAct_halted p s a hm
    have h2 := ih (stepAct p s a) h1.2
    exact ⟨h2.1.trans h1.1, h2.2⟩

/-! ### Claim theorems -/

/-- C1: in any connect attempt whose cookie address resolves but whose
secure/insecure classification (the code's `startsWith('https')` test)
differs from the page origin's, the attempt performs no socket
construction at all and leaves the socket ref untouched — the `Streaming`
phase is unreachable without a passed guard. -/
theorem c1_mismatch_never_constructs_socket (p : Props) (env : Env) (g : Cst) (addr : String)
    (hc : env.cookiesRes = Outcome.ok addr)
    (hm : jsStartsWith addr "https" ≠ jsStartsWith env.pageOrigin "https") :
    ((runInit p env g).2.all (fun e => !e.isSocketCtor)) = true ∧
    (runInit p env g).1.socketRef = g.socketRef := by
  have hg := protocolFor_ne_of_class_ne hm
  by_cases hs : g.socketRef.isSome
  · simp [runInit, segA, hs]
  · cases ht : env.ticketRes with
    | failed => simp [runInit, segA, segB, hs, ht, Effect.isSocketCtor]
    | ok t => simp [runInit, segA, segB, segC, hs, ht, hc, hg, Effect.isSocketCtor]

/-- Witness for C1 at a concrete mismatched environment: endpoint declares
`http`, page origin is `https`. -/
theorem c1_witness :
    ((runInit demoProps envMismatch initCst).2.all (fun e => !e.isSocketCtor)) = true ∧
    (runInit demoProps envMismatch initCst).1.socketRef = initCst.socketRef :=
  c1_mismatch_never_constructs_socket demoProps envMismatch initCst "http://node.example:2812"
    rfl (by decide)

/-- C4: over all well-formed endpoint addresses and page origins, the
guard blocks exactly when the secure/insecure classifications of the two
declared schemes differ — both mismatch directions block, both agreements
pass. -/
theorem c4_guard_blocks_iff_class_differs (es os : Scheme) (ehost ohost : String) :
    guardBlocks (renderAddress es ehost) (renderAddress os ohost) =
      (es.isSecure != os.isSecure) := by
  unfold guardBlocks protocolFor
  rw [jsStartsWith_renderAddress, jsStartsWith_renderAddress]
  cases es <;> cases os <;> decide

/-- C2, evaluation at the failing schedule: the cleanup (`dispose`) runs
while the connect attempt is still awaiting its ticket (so there is no
stored socket to close); the attempt then resumes, constructs and stores a
socket, and no `close` is ever issued for it — the connection is *not*
left closed.  The no-append half of the claim does hold: the queued
message delivered after the cleanup changes nothing, since React drops the
handler's `setHistory` once the component is unmounted. -/
theorem c2_dispose_race_eval :
    (runActs demoProps disposeRaceActs disposeRaceSys).st.mounted = false ∧
    (runActs demoProps disposeRaceActs disposeRaceSys).st.socketRef = some 0 ∧
    Effect.closeSocket 0 ∉ (runActs demoProps disposeRaceActs disposeRaceSys).effs ∧
    countSocketCtors (runActs demoProps disposeRaceActs disposeRaceSys).effs = 1 ∧
    (runActs demoProps disposeRaceActs disposeRaceSys).st.history = [] := by
  decide

/-- C2, amended: once the cleanup has run (the component is unmounted),
no later event — a resumed connect attempt, a queued stream message
delivered after the close, or another cleanup — ever appends to the log
buffer, and the component stays unmounted; running the cleanup twice
leaves the very same state as running it once.  What the original claim
added and the code does not provide: a cleanup that runs before the
connect attempt has stored its socket does not leave the connection
closed — the resumed attempt still constructs and opens a socket that is
never closed (see the counterexample). -/
theorem c2_amended_no_append_after_dispose (p : Props) (s : Sys) (acts : List Act)
    (hm : s.st.mounted = false) :
    (runActs p acts s).st.history = s.st.history ∧
    (runActs p acts s).st.mounted = false ∧
    (stepAct p (stepAct p s Act.dispose) Act.dispose).st =
      (stepAct p s Act.dispose).st := by
  have h := runActs_halted p acts s hm
  exact ⟨h.1, h.2, rfl⟩

/-- Witness for the amended C2: a disposed console with an in-flight
attempt; resuming the attempt and delivering a late message leave the
buffer unchanged. -/
theorem c2_amended_witness :
    (runActs demoProps [Act.run 0, Act.run 0, Act.deliverMsg 0 "late line"]
        { st := { initCst with mounted := false },
          calls := [{ env := envGood, pc := Pc.atB }], effs := [] }).st.history =
      ({ st := { initCst with mounted := false },
          calls := [{ env := envGood, pc := Pc.atB }], effs := [] } : Sys).st.history ∧
    (runActs demoProps [Act.run 0, Act.run 0, Act.deliverMsg 0 "late line"]
        { st := { initCst with mounted := false },
          calls := [{ env := envGood, pc := Pc.atB }], effs := [] }).st.mounted = false ∧
    (stepAct demoProps
        (stepAct demoProps
          { st := { initCst with mounted := false },
            calls := [{ env := envGood, pc := Pc.atB }], effs := [] } Act.dispose)
        Act.dispose).st =
      (stepAct demoProps
        { st := { initCst with mounted := false },
          calls := [{ env := envGood, pc := Pc.atB }], effs := [] } Act.dispose).st :=
  c2_amended_no_append_after_dispose demoProps
    { st := { initCst with mounted := false },
      calls := [{ env := envGood, pc := Pc.atB }], effs := [] }
    [Act.run 0, Act.run 0, Act.deliverMsg 0 "late line"] rfl

/-- C3, evaluation at the failing schedule: a second `initializeSocket`
call entering while the first is still awaiting `createTicket` passes the
`if (socketRef.current) return` guard (the ref is still null), so the pair
of overlapping calls requests two tickets and constructs two sockets, the
second overwriting the first in the ref. -/
theorem c3_overlap_two_tickets_eval :
    countTicketReqs (runActs demoProps overlapActs overlapSys).effs = 2 ∧
    countSocketCtors (runActs demoProps overlapActs overlapSys).effs = 2 ∧
    (runActs demoProps overlapActs overlapSys).st.socketRef = some 1 := by
  decide

/-- C5, counterexample: after a rejected ticket request, the component
state is *identical* to the state after a scheme-mismatch guard block —
both are exactly `setSocketBlocked(true)` on the initial state — so the
`protocolMismatch` alert (rendered whenever `socketBlocked` is set) is
displayed for the auth failure too.  The claim's "Errored is distinct from
GuardBlocked: the surfaced error is a connection error, not a
protocol-mismatch block" is false on the code: the two final states are
equal and the mismatch block is surfaced in both. -/
theorem c5_counterexample :
    (runInit demoProps envAuthFail initCst).1 = (runInit demoProps envMismatch initCst).1 ∧
    (runInit demoProps envAuthFail initCst).1.socketBlocked = true := by
  decide

/-- C5, amended: a ticket failure and a socket-construction failure each
raise a connection-error toast (and never store a socket), while a guard
block raises no toast — the toast is the only observable distinction,
because all three paths set the same `socketBlocked` flag that renders the
protocol-mismatch alert. -/
theorem c5_amended_errors_toast_and_set_blocked (p : Props) (env : Env) (g : Cst)
    (addr tk : String) (href : g.socketRef = none) (hmt : g.mounted = true) :
    (env.ticketRes = Outcome.failed →
      (runInit p env g).1.socketBlocked = true ∧
      Effect.toastConnError ∈ (runInit p env g).2 ∧
      countSocketCtors (runInit p env g).2 = 0) ∧
    (env.ticketRes = Outcome.ok tk → env.cookiesRes = Outcome.ok addr →
      jsStartsWith addr "https" = jsStartsWith env.pageOrigin "https" →
      env.ctorOk = false →
      (runInit p env g).1.socketBlocked = true ∧
      Effect.toastConnError ∈ (runInit p env g).2 ∧
      (runInit p env g).1.socketRef = none) ∧
    (env.ticketRes = Outcome.ok tk → env.cookiesRes = Outcome.ok addr →
      jsStartsWith addr "https" ≠ jsStartsWith env.pageOrigin "https" →
      (runInit p env g).1.socketBlocked = true ∧
      Effect.toastConnError ∉ (runInit p env g).2) := by
  refine ⟨?_, ?_, ?_⟩
  · intro ht
    simp [runInit, segA, segB, href, ht, countSocketCtors, Effect.isSocketCtor,
      setBlockedTrue_socketBlocked _ hmt]
  · intro ht hc hcls hctor
    have hge : protocolFor addr = protocolFor env.pageOrigin := protocolFor_eq_of_class_eq hcls
    simp [runInit, segA, segB, segC, href, ht, hc, hge, hctor,
      setBlockedTrue_socketBlocked _ hmt]
  · intro ht hc hcls
    have hg := protocolFor_ne_of_class_ne hcls
    simp [runInit, segA, segB, segC, href, ht, hc, hg,
      setBlockedTrue_socketBlocked _ hmt]

/-- Witness for the amended C5 at concrete inputs; the first antecedent is
dischargeable with `envAuthFail`. -/
theorem c5_amended_witness :
    ((envAuthFail.ticketRes = Outcome.failed →
      (runInit demoProps envAuthFail initCst).1.socketBlocked = true ∧
      Effect.toastConnError ∈ (runInit demoProps envAuthFail initCst).2 ∧
      countSocketCtors (runInit demoProps envAuthFail initCst).2 = 0) ∧
    (envAuthFail.ticketRes = Outcome.ok "TCK" →
      envAuthFail.cookiesRes = Outcome.ok "https://node.example:2812" →
      jsStartsWith "https://node.example:2812" "https" =
        jsStartsWith envAuthFail.pageOrigin "https" →
      envAuthFail.ctorOk = false →
      (runInit demoProps envAuthFail initCst).1.socketBlocked = true ∧
      Effect.toastConnError ∈ (runInit demoProps envAuthFail initCst).2 ∧
      (runInit demoProps envAuthFail initCst).1.socketRef = none) ∧
    (envAuthFail.ticketRes = Outcome.ok "TCK" →
      envAuthFail.cookiesRes = Outcome.ok "https://node.example:2812" →
      jsStartsWith "https://node.example:2812" "https" ≠
        jsStartsWith envAuthFail.pageOrigin "https" →
      (runInit demoProps envAuthFail initCst).1.socketBlocked = true ∧
      Effect.toastConnError ∉ (runInit demoProps envAuthFail initCst).2)) :=
  c5_amended_errors_toast_and_set_blocked demoProps envAuthFail initCst
    "https://node.example:2812" "TCK" rfl rfl

/-- C6: the exported text is the newline-join of the full buffer and is
invariant under any change of the active filter; at the claim's concrete
seed `["a", "b ERROR", "c"]` with filter `ERROR`, the export carries all
three lines even though the view shows only one. -/
theorem c6_export_ignores_filter (g : Cst) (f : String) :
    downloadLogsContent { g with filter := f } = downloadLogsContent g ∧
    downloadLogsContent g = String.intercalate "\n" g.history ∧
    downloadLogsContent { initCst with history := ["a", "b ERROR", "c"], filter := "ERROR" } =
      "a\nb ERROR\nc" ∧
    filteredHistory "ERROR" ["a", "b ERROR", "c"] = ["b ERROR"] :=
  ⟨rfl, rfl, by decide, by decide⟩

/-- C7, counterexample: at the filter string `"ALL"` the claim fails —
the code treats `'ALL'` as a reserved sentinel selecting the whole buffer,
so `filteredHistory "ALL" ["x"] = ["x"]` although `"x"` does not
case-insensitively contain `"ALL"` (the claimed characterization would
give `[]`). -/
theorem c7_counterexample :
    ¬ (filteredHistory "ALL" ["x"] =
        List.filter (fun e => jsIncludes (jsToLower e) (jsToLower "ALL")) ["x"]) := by
  decide

/-- C7, amended: for every level string other than the reserved sentinel
`'ALL'` (which selects the unfiltered view), the filtered view is exactly
the case-insensitive-containment filter of the buffer — an
order-preserving subsequence each of whose entries contains the level,
stored entries unchanged. -/
theorem c7_amended_view_is_ci_filter (L : String) (h : List String) (hL : L ≠ "ALL") :
    filteredHistory L h = h.filter (fun e => jsIncludes (jsToLower e) (jsToLower L)) ∧
    (filteredHistory L h).Sublist h ∧
    ((filteredHistory L h).all (fun e => jsIncludes (jsToLower e) (jsToLower L))) = true := by
  have hb : (L == "ALL") = false := beq_false_of_ne hL
  have h1 : filteredHistory L h =
      h.filter (fun e => jsIncludes (jsToLower e) (jsToLower L)) := by
    unfold filteredHistory entryMatches
    simp [hb]
  refine ⟨h1, ?_, ?_⟩
  · rw [h1]
    exact List.filter_sublist h
  · rw [h1, List.all_eq_true]
    intro e he
    exact (List.mem_filter.mp he).2

/-- Witness for the amended C7 at the claim's concrete seed and filter. -/
theorem c7_amended_witness :
    (filteredHistory "ERROR" ["a", "b ERROR", "c"] =
      List.filter (fun e => jsIncludes (jsToLower e) (jsToLower "ERROR"))
        ["a", "b ERROR", "c"]) ∧
    (filteredHistory "ERROR" ["a", "b ERROR", "c"]).Sublist ["a", "b ERROR", "c"] ∧
    ((filteredHistory "ERROR" ["a", "b ERROR", "c"]).all
      (fun e => jsIncludes (jsToLower e) (jsToLower "ERROR"))) = true :=
  c7_amended_view_is_ci_filter "ERROR" ["a", "b ERROR", "c"] (by decide)

/-- C8: on a service target with a good ticket, matching schemes and a
successful construction, the full mount run performs the cache fetch and
*completes the seeding — whether the fetch succeeds or fails — strictly
before the connect attempt*, as the effect traces show: on a failed fetch,
the non-fatal error toast precedes the ticket request and the buffer seeds
empty; on a successful fetch, the buffer seeds with the fetched lines
before the ticket request; in both cases the attempt then stores a socket
(Streaming) with nothing blocked, the live stream starting over the
already-seeded buffer. -/
theorem c8_seed_completes_then_streams (p : Props) (env : Env) (name addr tk : String)
    (lines : List String)
    (hty : p.ty = some TargetKind.service) (hname : p.serviceName = some name)
    (hne : name ≠ "")
    (ht : env.ticketRes = Outcome.ok tk) (hck : env.cookiesRes = Outcome.ok addr)
    (hguard : jsStartsWith addr "https" = jsStartsWith env.pageOrigin "https")
    (hok : env.ctorOk = true) :
    (env.cacheRes = Outcome.failed →
      (mountRun p env initCst).2 =
        [Effect.fetchCachedLogs name, Effect.toastFetchError, Effect.requestTicket,
          Effect.requestCookies,
          Effect.newWebSocket (protocolFor addr ++ "://" ++ stripScheme addr ++
            p.webSocketPath ++ "?ticket=" ++ tk)] ∧
      (mountRun p env initCst).1.history = [] ∧
      (mountRun p env initCst).1.socketRef = some 0 ∧
      (mountRun p env initCst).1.socketBlocked = false) ∧
    (env.cacheRes = Outcome.ok lines →
      (mountRun p env initCst).2 =
        [Effect.fetchCachedLogs name, Effect.requestTicket, Effect.requestCookies,
          Effect.newWebSocket (protocolFor addr ++ "://" ++ stripScheme addr ++
            p.webSocketPath ++ "?ticket=" ++ tk)] ∧
      (mountRun p env initCst).1.history = lines ∧
      (mountRun p env initCst).1.socketRef = some 0 ∧
      (mountRun p env initCst).1.socketBlocked = false) := by
  have hge : protocolFor addr = protocolFor env.pageOrigin := protocolFor_eq_of_class_eq hguard
  have hb : (name == "") = false := beq_false_of_ne hne
  constructor
  · intro hcache
    simp [mountRun, runCachedLogLines, runInit, segA, segB, segC, truthyOpt, initCst,
      hty, hname, hcache, ht, hck, hok, hb, hge]
  · intro hcache
    simp [mountRun, runCachedLogLines, runInit, segA, segB, segC, setHistoryTo,
      truthyOpt, initCst, hty, hname, hcache, ht, hck, hok, hb, hge]

/-- Witness for C8 at a concrete service console whose cache fetch
succeeds with one line; the success-case antecedent is dischargeable, and
the seeding still precedes the connect attempt. -/
theorem c8_witness :
    ((envGoodCache.cacheRes = Outcome.failed →
      (mountRun demoProps envGoodCache initCst).2 =
        [Effect.fetchCachedLogs "Lobby-1", Effect.toastFetchError, Effect.requestTicket,
          Effect.requestCookies,
          Effect.newWebSocket (protocolFor "https://node.example:2812" ++ "://" ++
            stripScheme "https://node.example:2812" ++ demoProps.webSocketPath ++
            "?ticket=" ++ "TCK")] ∧
      (mountRun demoProps envGoodCache initCst).1.history = [] ∧
      (mountRun demoProps envGoodCache initCst).1.socketRef = some 0 ∧
      (mountRun demoProps envGoodCache initCst).1.socketBlocked = false) ∧
    (envGoodCache.cacheRes = Outcome.ok ["cached line"] →
      (mountRun demoProps envGoodCache initCst).2 =
        [Effect.fetchCachedLogs "Lobby-1", Effect.requestTicket, Effect.requestCookies,
          Effect.newWebSocket (protocolFor "https://node.example:2812" ++ "://" ++
            stripScheme "https://node.example:2812" ++ demoProps.webSocketPath ++
            "?ticket=" ++ "TCK")] ∧
      (mountRun demoProps envGoodCache initCst).1.history = ["cached line"] ∧
      (mountRun demoProps envGoodCache initCst).1.socketRef = some 0 ∧
      (mountRun demoProps envGoodCache initCst).1.socketBlocked = false)) :=
  c8_seed_completes_then_streams demoProps envGoodCache "Lobby-1"
    "https://node.example:2812" "TCK" ["cached line"]
    rfl rfl (by decide) rfl rfl (by decide) rfl

/-- C9: whenever the bearer credential (`at` cookie) or the endpoint
address (`add` cookie) is absent, `serverApiGet`, `serverApiPost` and the
ticket-issuance wrapper all fail with `Unauthorized` and record no fetched
request — the failure precedes any network call. -/
theorem c9_absent_session_unauthorized {α : Type} (decode : String → String) (resp : Resp)
    (parse : String → Option α) (store : List (String × String)) (url qs body ty : String)
    (h : cookieGet store "at" = none ∨ cookieGet store "add" = none) :
    serverApiGet decode resp parse store url qs =
      (none, Except.error ApiErr.unauthorized) ∧
    serverApiPost decode resp parse store url body =
      (none, Except.error ApiErr.unauthorized) ∧
    serverAuthCreateTicket decode resp parse store ty =
      (none, Except.error ApiErr.unauthorized) := by
  rcases h with h | h <;>
    simp [serverApiGet, serverApiPost, serverAuthCreateTicket, truthyOpt, h]

/-- Witness for C9: a session with an endpoint address but no bearer
credential is rejected without a recorded request. -/
theorem c9_witness :
    serverApiGet (fun s => s) ⟨true, 200, "1"⟩ (fun _ => (none : Option Nat))
        [("add", "https%3A%2F%2Fnode")] "/user" "" =
      (none, Except.error ApiErr.unauthorized) ∧
    serverApiPost (fun s => s) ⟨true, 200, "1"⟩ (fun _ => (none : Option Nat))
        [("add", "https%3A%2F%2Fnode")] "/api/auth/jwt" "" =
      (none, Except.error ApiErr.unauthorized) ∧
    serverAuthCreateTicket (fun s => s) ⟨true, 200, "1"⟩ (fun _ => (none : Option Nat))
        [("add", "https%3A%2F%2Fnode")] "service" =
      (none, Except.error ApiErr.unauthorized) :=
  c9_absent_session_unauthorized (fun s => s) ⟨true, 200, "1"⟩ (fun _ => (none : Option Nat))
    [("add", "https%3A%2F%2Fnode")] "/user" "" "" "service" (Or.inl rfl)

/-- C10: the input field is cleared only by a successful send — a failed
send leaves it unchanged, and a blank (empty or whitespace-only) input or
a missing/empty service name short-circuits to no remote call and no state
change at all; with a non-blank input, a truthy service name and a
successful send the field is cleared. -/
theorem c10_input_cleared_only_on_success (p : Props) (g : Cst) (r : Outcome Unit)
    (hmt : g.mounted = true) :
    (r = Outcome.failed → (handleSubmit p g r).1.input = g.input) ∧
    (jsTrim g.input = "" → handleSubmit p g r = (g, [])) ∧
    (p.serviceName = none → handleSubmit p g r = (g, [])) ∧
    (p.serviceName = some "" → handleSubmit p g r = (g, [])) ∧
    (jsTrim g.input ≠ "" → truthyOpt p.serviceName = true → r = Outcome.ok () →
      (handleSubmit p g r).1.input = "") := by
  refine ⟨?_, ?_, ?_, ?_, ?_⟩
  · intro hr
    subst hr
    unfold handleSubmit
    split
    · rfl
    · rfl
  · intro h2
    have hbn : (jsTrim g.input != "") = false := by
      rw [h2]
      rfl
    simp [handleSubmit, hbn]
  · intro hn
    simp [handleSubmit, hn, truthyOpt]
  · intro hn
    simp [handleSubmit, hn, truthyOpt]
  · intro h5 h6 h7
    subst h7
    have hbn : (jsTrim g.input != "") = true := by
      have := beq_false_of_ne h5
      simp [bne, this]
    simp [handleSubmit, hbn, h6, setInputEmpty, hmt]

/-- Witness for C10 at a concrete state with a whitespace-padded command;
a successful send clears the field. -/
theorem c10_witness :
    (((Outcome.failed : Outcome Unit) = Outcome.failed →
      (handleSubmit demoProps { initCst with input := " stop " } Outcome.failed).1.input =
        ({ initCst with input := " stop " } : Cst).input) ∧
    (jsTrim ({ initCst with input := " stop " } : Cst).input = "" →
      handleSubmit demoProps { initCst with input := " stop " } Outcome.failed =
        ({ initCst with input := " stop " }, [])) ∧
    (demoProps.serviceName = none →
      handleSubmit demoProps { initCst with input := " stop " } Outcome.failed =
        ({ initCst with input := " stop " }, [])) ∧
    (demoProps.serviceName = some "" →
      handleSubmit demoProps { initCst with input := " stop " } Outcome.failed =
        ({ initCst with input := " stop " }, [])) ∧
    (jsTrim ({ initCst with input := " stop " } : Cst).input ≠ "" →
      truthyOpt demoProps.serviceName = true →
      (Outcome.failed : Outcome Unit) = Outcome.ok () →
      (handleSubmit demoProps { initCst with input := " stop " } Outcome.failed).1.input =
        "")) :=
  c10_input_cleared_only_on_success demoProps { initCst with input := " stop " }
    Outcome.failed rfl

end CloudnetConsole
